import Mathlib

/-!
Verification development for the devpod gcloud provider.

The repository consists of a `delete` lifecycle command (cmd/delete.go)
and an ssh helper package holding the key-pair bootstrap
(`prepareDir`, `GetPrivateKey`, `GetPublicKey`, `rsaKeyGen`,
`generateKeys`) and the ssh client factory (`NewClient`,
`ConfigFromKeyBytes`).

All bootstrap operations act on a single caller-supplied directory and
the two fixed file names `id_devpod_rsa` and `id_devpod_rsa.pub`, so the
file-system state is embedded as a record holding the directory and the
two files.  Operating-system primitives (`os.MkdirAll`, `os.Stat`,
`os.WriteFile`, `os.ReadFile`) and the random key generation are driven
by a fault-injection environment `Env`: each field is the outcome the
operating system or the random source would produce, so theorems
quantify over every possible run.  State changes persist across a
failure, mirroring reality, so every operation returns the new state
together with its Go-style error value.
-/

/-- Go error values: either a base error (from the operating system, the
random source or an SDK) or an error produced by errors.Wrap with a
stage label. -/
inductive GoErr where
  | base (msg : String)
  | wrap (label : String) (err : GoErr)
  deriving DecidableEq, Repr

/-- A regular file: its byte content (as a string, as the Go code
converts freely between the two) and its permission bits. -/
structure File where
  content : String
  perm : Nat
  deriving DecidableEq, Repr

/-- The state of the one directory the ssh package works in: the
directory itself (with its permission bits, when it exists), the
private-key file id_devpod_rsa and the public-key file
id_devpod_rsa.pub. -/
structure FS where
  dir : Option Nat
  privFile : Option File
  pubFile : Option File
  deriving DecidableEq, Repr

/-- Fault-injection environment for one run: the error each external
primitive returns, none meaning success, and the key pair the random
source would yield.  `keyGenResult` abstracts `rsaKeyGen`: on success it
supplies the PEM private-key string and the authorized-key public-key
string that the generation produces. -/
structure Env where
  mkdirResult : Option GoErr
  keyGenResult : Except GoErr (String × String)
  writePubResult : Option GoErr
  writePrivResult : Option GoErr
  readPrivResult : Option GoErr
  readPubResult : Option GoErr
  deriving Repr

/-- Embedding of `os.MkdirAll(dir, 0755)`: on success the directory
exists afterwards; an already-existing directory keeps its permission
bits, a fresh one gets 0755. -/
def mkdirAll (fault : Option GoErr) (fs : FS) : FS × Option GoErr :=
  match fault with
  | some e => (fs, some e)
  | none => ({ fs with dir := some (fs.dir.getD 0o755) }, none)

/-- Embedding of `os.WriteFile(path, content, perm)` on one file slot:
on success the file holds the new content; a pre-existing file keeps its
permission bits (os.WriteFile truncates without changing permissions),
a fresh file gets `perm`. -/
def writeFile (fault : Option GoErr) (prev : Option File) (content : String)
    (perm : Nat) : Option File × Option GoErr :=
  match fault with
  | some e => (prev, some e)
  | none => (some ⟨content, (prev.map File.perm).getD perm⟩, none)

/-- Embedding of `os.ReadFile` on one file slot: an injected fault or a
missing file is an error, otherwise the content is returned. -/
def readFile (fault : Option GoErr) (f : Option File) : Except GoErr String :=
  match fault with
  | some e => .error e
  | none =>
    match f with
    | none => .error (.base "open: no such file or directory")
    | some file => .ok file.content

/-- Embedding of `prepareDir` (ssh package): MkdirAll the directory
(returning the MkdirAll error unwrapped on failure), Stat the
private-key file, and only when that Stat fails generate a key pair and
write first the public then the private key file, wrapping each failure
with its stage label. -/
def prepareDir (env : Env) (fs : FS) : FS × Option GoErr :=
  match mkdirAll env.mkdirResult fs with
  | (fs1, some e) => (fs1, some e)
  | (fs1, none) =>
    match fs1.privFile with
    | some _ => (fs1, none)
    | none =>
      match env.keyGenResult with
      | .error e => (fs1, some (.wrap "generate key pair" e))
      | .ok (privateKey, pubKey) =>
        match writeFile env.writePubResult fs1.pubFile pubKey 0o644 with
        | (_, some e) => (fs1, some (.wrap "write public ssh key" e))
        | (pubF, none) =>
          match writeFile env.writePrivResult fs1.privFile privateKey 0o600 with
          | (_, some e) =>
            ({ fs1 with pubFile := pubF }, some (.wrap "write private ssh key" e))
          | (privF, none) =>
            ({ fs1 with pubFile := pubF, privFile := privF }, none)

/-- Embedding of `GetPrivateKey`: run prepareDir, then read the
private-key file; a read failure is wrapped with the label the source
uses there, which is the string "read public ssh key". -/
def GetPrivateKey (env : Env) (fs : FS) : FS × Except GoErr String :=
  match prepareDir env fs with
  | (fs1, some e) => (fs1, .error e)
  | (fs1, none) =>
    match readFile env.readPrivResult fs1.privFile with
    | .error e => (fs1, .error (.wrap "read public ssh key" e))
    | .ok out => (fs1, .ok out)

/-- Embedding of `GetPublicKey`: run prepareDir, then read the
public-key file, wrapping a read failure with "read public ssh key". -/
def GetPublicKey (env : Env) (fs : FS) : FS × Except GoErr String :=
  match prepareDir env fs with
  | (fs1, some e) => (fs1, .error e)
  | (fs1, none) =>
    match readFile env.readPubResult fs1.pubFile with
    | .error e => (fs1, .error (.wrap "read public ssh key" e))
    | .ok out => (fs1, .ok out)

/-!
Model of the delete command (cmd/delete.go).  The configuration loader
`options.FromEnv` and the compute client `gcloud.NewClient` /
`client.Delete` / `client.Close` live in packages of this repository
that are not under src/, so they are modelled from the spec as an
oracle of outcomes plus an event trace recording every call made
against the compute client.
-/

/-- Configuration structure loaded from the environment: project id,
zone and machine identifier. -/
structure Options where
  project : String
  zone : String
  machineID : String
  deriving DecidableEq, Repr

/-- Events recorded against the compute client: opening a client for a
project and zone, the Delete compute-API call for a machine id, and
closing the client handle. -/
inductive GCEvent where
  | newClient (project zone : String)
  | deleteCall (machineID : String)
  | close
  deriving DecidableEq, Repr

/-- Modelled from the spec: outcomes of the external calls the delete
command makes.  `options.FromEnv` (configuration loading), and the two
fallible compute-SDK calls `gcloud.NewClient` and `client.Delete`,
which are not under src/; each field is the result the external call
would return in this run, none meaning success. -/
structure CmdEnv where
  fromEnvResult : Except GoErr Options
  newClientResult : Option GoErr
  deleteResult : Option GoErr

/-- Discriminates the compute-API operations (the lifecycle calls that
mutate cloud state) from client-handle management events. -/
def isComputeCall : GCEvent → Bool
  | .deleteCall _ => true
  | _ => false

/-- Embedding of `DeleteCmd.Run`: open a client for the configured
project and zone (propagating a failure verbatim), then return the
result of `client.Delete(machineID)` verbatim, closing the deferred
client handle either way.  The second component is the trace of calls
made against the compute client. -/
def DeleteCmdRun (env : CmdEnv) (opts : Options) : Option GoErr × List GCEvent :=
  match env.newClientResult with
  | some e => (some e, [.newClient opts.project opts.zone])
  | none =>
    (env.deleteResult,
      [.newClient opts.project opts.zone, .deleteCall opts.machineID, .close])

/-- Embedding of the RunE closure built by `NewDeleteCmd`: load the
configuration with options.FromEnv, returning its error verbatim on
failure, and otherwise run DeleteCmd.Run. -/
def NewDeleteCmdRunE (env : CmdEnv) : Option GoErr × List GCEvent :=
  match env.fromEnvResult with
  | .error e => (some e, [])
  | .ok opts => DeleteCmdRun env opts

/-!
Symbolic model of the cryptographic values flowing through `rsaKeyGen`,
`generateKeys` and `ConfigFromKeyBytes`.  The third-party primitives
(crypto/rsa, crypto/x509, encoding/pem, golang.org/x/crypto/ssh) are
modelled symbolically: a generated RSA private key is an abstract value
carrying an identity, encodings are constructors, and
`ssh.ParsePrivateKey` inverts exactly the PEM/PKCS1 shape that the
encoders produce, per the documented contracts of those libraries.
What the theorems then check is how the repository wires those
primitives together.
-/

/-- An abstract RSA private key as produced by
`rsa.GenerateKey(rand.Reader, 2048)`; the identity stands for the raw
key material. -/
structure RSAPriv where
  id : Nat
  deriving DecidableEq, Repr

/-- The abstract RSA public key of a private key, as returned by the
Public method of the crypto.Signer. -/
structure RSAPub where
  id : Nat
  deriving DecidableEq, Repr

/-- The public half of an abstract RSA private key. -/
def RSAPriv.pub (k : RSAPriv) : RSAPub := ⟨k.id⟩

/-- Symbolic DER payloads of a pem.Block: the only one the repository
builds is the PKCS1 marshalling of an RSA private key
(`x509.MarshalPKCS1PrivateKey`). -/
inductive DERBytes where
  | pkcs1 (k : RSAPriv)
  deriving DecidableEq, Repr

/-- A pem.Block: a type label and DER bytes. -/
structure PemBlock where
  type : String
  bytes : DERBytes
  deriving DecidableEq, Repr

/-- An ssh public key as returned by `ssh.NewPublicKey`. -/
inductive SSHPub where
  | rsa (p : RSAPub)
  deriving DecidableEq, Repr

/-- Symbolic byte strings: an opaque literal, the pem encoding of a
block, or the authorized-key encoding of an ssh public key. -/
inductive SymBytes where
  | lit (s : String)
  | pem (type : String) (der : DERBytes)
  | authorizedKey (p : SSHPub)
  deriving DecidableEq, Repr

/-- Symbolic model of `pem.EncodeToMemory`. -/
def pemEncodeToMemory (block : PemBlock) : SymBytes :=
  .pem block.type block.bytes

/-- Symbolic model of `ssh.NewPublicKey`: it succeeds on the RSA public
keys this repository feeds it. -/
def sshNewPublicKey (p : RSAPub) : Except GoErr SSHPub :=
  .ok (.rsa p)

/-- Symbolic model of `ssh.MarshalAuthorizedKey`. -/
def marshalAuthorizedKey (p : SSHPub) : SymBytes :=
  .authorizedKey p

/-- An ssh.Signer as returned by `ssh.ParsePrivateKey`. -/
inductive Signer where
  | rsa (k : RSAPriv)
  deriving DecidableEq, Repr

/-- The ssh public key of a signer (its PublicKey method). -/
def Signer.publicKey : Signer → SSHPub
  | .rsa k => .rsa k.pub

/-- Symbolic model of `ssh.ParsePrivateKey`: it recovers a signer from
exactly the PEM-encoded PKCS1 RSA private key shape that the encoders
produce, and fails on anything else. -/
def sshParsePrivateKey (b : SymBytes) : Except GoErr Signer :=
  match b with
  | .pem "RSA PRIVATE KEY" (.pkcs1 k) => .ok (.rsa k)
  | _ => .error (.base "ssh: no key found")

/-- Embedding of `generateKeys`: pem-encode the block into the private
key string, take the public half of the signer, turn it into an ssh
public key and marshal it in authorized-key format. -/
def generateKeys (block : PemBlock) (cp : RSAPriv) :
    Except GoErr (SymBytes × SymBytes) :=
  match sshNewPublicKey cp.pub with
  | .error e => .error e
  | .ok p => .ok (pemEncodeToMemory block, marshalAuthorizedKey p)

/-- Embedding of `rsaKeyGen`: generate a 2048-bit RSA key (the outcome
of the random source is the parameter `gen`), then build the PEM block
with type RSA PRIVATE KEY over its PKCS1 marshalling and hand both to
generateKeys. -/
def rsaKeyGen (gen : Except String RSAPriv) :
    Except GoErr (SymBytes × SymBytes) :=
  match gen with
  | .error msg => .error (.base ("generate private key: " ++ msg))
  | .ok privateKeyRaw =>
    generateKeys ⟨"RSA PRIVATE KEY", .pkcs1 privateKeyRaw⟩ privateKeyRaw

/-- The data handed to an ssh host-key callback: hostname, remote
address and the host key the server presented. -/
structure HostEndpoint where
  hostname : String
  remoteAddr : String
  key : SSHPub
  deriving DecidableEq, Repr

/-- An ssh authentication method; `ssh.PublicKeys` stores the signer it
authenticates with. -/
inductive AuthMethod where
  | publicKeys (s : Signer)
  deriving DecidableEq, Repr

/-- The public key an authentication method presents. -/
def AuthMethod.presentedKey : AuthMethod → SSHPub
  | .publicKeys s => s.publicKey

/-- An ssh.ClientConfig: authentication methods, the user identity and
the host-key callback (none means the host key is accepted). -/
structure ClientConfig where
  auth : List AuthMethod
  user : String
  hostKeyCallback : HostEndpoint → Option GoErr

/-- Symbolic model of `ssh.InsecureIgnoreHostKey`: a callback accepting
every host key. -/
def insecureIgnoreHostKey : HostEndpoint → Option GoErr :=
  fun _ => none

/-- Embedding of `ConfigFromKeyBytes`: start from a config with no
authentication methods, user devpod and the insecure host-key callback;
parse the private key, wrapping a failure with "parse private key", and
append public-key authentication by the parsed signer. -/
def ConfigFromKeyBytes (keyBytes : SymBytes) : Except GoErr ClientConfig :=
  match sshParsePrivateKey keyBytes with
  | .error e => .error (.wrap "parse private key" e)
  | .ok signer =>
    .ok { auth := [] ++ [.publicKeys signer]
          user := "devpod"
          hostKeyCallback := insecureIgnoreHostKey }

/-!
Sample states and environments used by the witness theorems.
-/

/-- A directory already holding both key files. -/
def fsWithKeys : FS :=
  ⟨some 0o755, some ⟨"EXISTING PRIVATE", 0o600⟩, some ⟨"EXISTING PUBLIC", 0o644⟩⟩

/-- A missing directory: no directory, hence no files. -/
def fsMissingDir : FS := ⟨none, none, none⟩

/-- An existing directory holding neither key file. -/
def fsEmptyDir : FS := ⟨some 0o700, none, none⟩

/-- A directory holding a public-key file but no private-key file. -/
def fsPubOnly : FS := ⟨some 0o755, none, some ⟨"OLD PUBLIC", 0o640⟩⟩

/-- An environment in which every primitive succeeds and generation
yields a fixed key pair. -/
def envAllOk : Env := ⟨none, .ok ("GEN PRIVATE", "GEN PUBLIC"), none, none, none, none⟩

/-- An environment in which only the private-key file write fails. -/
def envPrivWriteFails : Env :=
  ⟨none, .ok ("GEN PRIVATE", "GEN PUBLIC"), none, some (.base "disk full"), none, none⟩

/-- An environment in which only the private-key file read fails. -/
def envPrivReadFails : Env :=
  ⟨none, .ok ("GEN PRIVATE", "GEN PUBLIC"), none, none, some (.base "input-output error"), none⟩

/-- A sample loaded configuration. -/
def optsSample : Options := ⟨"my-project", "europe-west4-a", "devpod-vm"⟩

/-- A command environment in which every external call succeeds. -/
def cmdEnvOk : CmdEnv := ⟨.ok optsSample, none, none⟩

/-- A command environment in which configuration loading fails. -/
def cmdEnvNoCfg : CmdEnv := ⟨.error (.base "PROJECT is required"), none, none⟩

/-- A sample generated RSA private key. -/
def rsaSample : RSAPriv := ⟨42⟩

/-- The symbolic private-key bytes of the sample key, as rsaKeyGen
would emit them. -/
def keyBytesSample : SymBytes := .pem "RSA PRIVATE KEY" (.pkcs1 rsaSample)

/-- C1: for every directory whose private-key file exists, prepareDir
never generates a new key and never writes either key file — the state
is unchanged apart from MkdirAll ensuring the directory, and this holds
for every outcome of key generation and of the writes, so generation is
never even attempted — and a subsequent GetPrivateKey returns exactly
the existing private-key file content, whatever that content is. -/
theorem prepareDir_existing_key_noop (env : Env) (fs : FS) (f : File)
    (hp : fs.privFile = some f) (hm : env.mkdirResult = none)
    (hr : env.readPrivResult = none) :
    prepareDir env fs = ({ fs with dir := some (fs.dir.getD 0o755) }, none) ∧
    GetPrivateKey env fs
      = ({ fs with dir := some (fs.dir.getD 0o755) }, .ok f.content) := by
  have h1 : prepareDir env fs
      = ({ fs with dir := some (fs.dir.getD 0o755) }, none) := by
    simp [prepareDir, mkdirAll, hm, hp]
  refine ⟨h1, ?_⟩
  simp [GetPrivateKey, h1, readFile, hr, hp]

/-- Witness for C1 at a directory holding both key files. -/
theorem prepareDir_existing_key_noop_witness :
    prepareDir envAllOk fsWithKeys = (fsWithKeys, none) ∧
    GetPrivateKey envAllOk fsWithKeys = (fsWithKeys, .ok "EXISTING PRIVATE") := by
  have h := prepareDir_existing_key_noop envAllOk fsWithKeys
    ⟨"EXISTING PRIVATE", 0o600⟩ rfl rfl rfl
  simpa [fsWithKeys, envAllOk] using h

/-- C2: key bootstrap is idempotent — on an initially empty directory a
first prepareDir writes the generated pair exactly once, and a second
invocation (under any environment whose MkdirAll succeeds, so whatever
a second generation would yield) returns the same state unchanged: both
files stay byte-identical to their state after the first invocation. -/
theorem prepareDir_idempotent (env env2 : Env) (fs : FS) (priv pub : String)
    (h1 : fs.privFile = none) (h2 : fs.pubFile = none)
    (hm : env.mkdirResult = none) (hk : env.keyGenResult = .ok (priv, pub))
    (hwp : env.writePubResult = none) (hwv : env.writePrivResult = none)
    (hm2 : env2.mkdirResult = none) :
    prepareDir env fs
      = ({ fs with
            dir := some (fs.dir.getD 0o755),
            privFile := some ⟨priv, 0o600⟩,
            pubFile := some ⟨pub, 0o644⟩ }, none) ∧
    prepareDir env2 (prepareDir env fs).1 = ((prepareDir env fs).1, none) := by
  have hfirst : prepareDir env fs
      = ({ fs with
            dir := some (fs.dir.getD 0o755),
            privFile := some ⟨priv, 0o600⟩,
            pubFile := some ⟨pub, 0o644⟩ }, none) := by
    simp [prepareDir, mkdirAll, writeFile, h1, h2, hm, hk, hwp, hwv]
  refine ⟨hfirst, ?_⟩
  rw [hfirst]
  simp [prepareDir, mkdirAll, hm2]

/-- Witness for C2 at an existing empty directory. -/
theorem prepareDir_idempotent_witness :
    prepareDir envAllOk fsEmptyDir
      = (⟨some 0o700, some ⟨"GEN PRIVATE", 0o600⟩, some ⟨"GEN PUBLIC", 0o644⟩⟩,
         none) ∧
    prepareDir envAllOk
        (⟨some 0o700, some ⟨"GEN PRIVATE", 0o600⟩, some ⟨"GEN PUBLIC", 0o644⟩⟩)
      = (⟨some 0o700, some ⟨"GEN PRIVATE", 0o600⟩, some ⟨"GEN PUBLIC", 0o644⟩⟩,
         none) := by
  have h := prepareDir_idempotent envAllOk envAllOk fsEmptyDir
    "GEN PRIVATE" "GEN PUBLIC" rfl rfl rfl rfl rfl rfl rfl
  simpa [fsEmptyDir, envAllOk] using h

/-- C4: after a successful bootstrap starting from a missing directory
(which therefore holds no files), the directory is created with mode
0755, the private-key file is written with mode 0600 and the public-key
file with mode 0644. -/
theorem prepareDir_fresh_permissions (env : Env) (fs : FS) (priv pub : String)
    (hd : fs.dir = none) (h1 : fs.privFile = none) (h2 : fs.pubFile = none)
    (hm : env.mkdirResult = none) (hk : env.keyGenResult = .ok (priv, pub))
    (hwp : env.writePubResult = none) (hwv : env.writePrivResult = none) :
    prepareDir env fs
      = (⟨some 0o755, some ⟨priv, 0o600⟩, some ⟨pub, 0o644⟩⟩, none) := by
  simp [prepareDir, mkdirAll, writeFile, h1, h2, hd, hm, hk, hwp, hwv]

/-- Witness for C4 at a missing directory. -/
theorem prepareDir_fresh_permissions_witness :
    prepareDir envAllOk fsMissingDir
      = (⟨some 0o755, some ⟨"GEN PRIVATE", 0o600⟩, some ⟨"GEN PUBLIC", 0o644⟩⟩,
         none) :=
  prepareDir_fresh_permissions envAllOk fsMissingDir
    "GEN PRIVATE" "GEN PUBLIC" rfl rfl rfl rfl rfl rfl rfl

/-- C5: both GetPrivateKey and GetPublicKey run prepareDir before
reading — their definitions invoke it — so on a missing directory
either retrieval creates the directory, generates the key pair, and
returns the corresponding freshly generated file content. -/
theorem getKey_self_healing (env : Env) (fs : FS) (priv pub : String)
    (hd : fs.dir = none) (h1 : fs.privFile = none) (h2 : fs.pubFile = none)
    (hm : env.mkdirResult = none) (hk : env.keyGenResult = .ok (priv, pub))
    (hwp : env.writePubResult = none) (hwv : env.writePrivResult = none)
    (hrp : env.readPrivResult = none) (hru : env.readPubResult = none) :
    GetPrivateKey env fs
      = (⟨some 0o755, some ⟨priv, 0o600⟩, some ⟨pub, 0o644⟩⟩, .ok priv) ∧
    GetPublicKey env fs
      = (⟨some 0o755, some ⟨priv, 0o600⟩, some ⟨pub, 0o644⟩⟩, .ok pub) := by
  have hboot := prepareDir_fresh_permissions env fs priv pub
    hd h1 h2 hm hk hwp hwv
  constructor
  · simp [GetPrivateKey, hboot, readFile, hrp]
  · simp [GetPublicKey, hboot, readFile, hru]

/-- Witness for C5 at a missing directory. -/
theorem getKey_self_healing_witness :
    GetPrivateKey envAllOk fsMissingDir
      = (⟨some 0o755, some ⟨"GEN PRIVATE", 0o600⟩, some ⟨"GEN PUBLIC", 0o644⟩⟩,
         .ok "GEN PRIVATE") ∧
    GetPublicKey envAllOk fsMissingDir
      = (⟨some 0o755, some ⟨"GEN PRIVATE", 0o600⟩, some ⟨"GEN PUBLIC", 0o644⟩⟩,
         .ok "GEN PUBLIC") :=
  getKey_self_healing envAllOk fsMissingDir "GEN PRIVATE" "GEN PUBLIC"
    rfl rfl rfl rfl rfl rfl rfl rfl rfl

/-- C9: on a directory holding a public-key file but no private-key
file, prepareDir generates a fresh pair and overwrites the public-key
file content with the newly generated public key (the pre-existing
content is not preserved; os.WriteFile keeps the old permission bits),
because the existence check consults only the private-key file. -/
theorem prepareDir_overwrites_public (env : Env) (fs : FS) (g : File)
    (priv pub : String)
    (hp : fs.privFile = none) (hg : fs.pubFile = some g)
    (hm : env.mkdirResult = none) (hk : env.keyGenResult = .ok (priv, pub))
    (hwp : env.writePubResult = none) (hwv : env.writePrivResult = none) :
    prepareDir env fs
      = ({ fs with
            dir := some (fs.dir.getD 0o755),
            privFile := some ⟨priv, 0o600⟩,
            pubFile := some ⟨pub, g.perm⟩ }, none) := by
  simp [prepareDir, mkdirAll, writeFile, hp, hg, hm, hk, hwp, hwv]

/-- Witness for C9 at a directory holding only a public-key file. -/
theorem prepareDir_overwrites_public_witness :
    prepareDir envAllOk fsPubOnly
      = (⟨some 0o755, some ⟨"GEN PRIVATE", 0o600⟩, some ⟨"GEN PUBLIC", 0o640⟩⟩,
         none) := by
  have h := prepareDir_overwrites_public envAllOk fsPubOnly
    ⟨"OLD PUBLIC", 0o640⟩ "GEN PRIVATE" "GEN PUBLIC" rfl rfl rfl rfl rfl rfl
  simpa [fsPubOnly, envAllOk] using h

/-- C10: generation is not atomic on error — the public-key file is
written before the private-key file, so when the private-key write
fails after the public-key write succeeded, prepareDir returns the
error wrapped with the private-write stage label while the directory is
left holding the newly written public-key file and no private-key
file. -/
theorem prepareDir_partial_on_priv_write_failure (env : Env) (fs : FS)
    (priv pub : String) (e : GoErr)
    (hp : fs.privFile = none)
    (hm : env.mkdirResult = none) (hk : env.keyGenResult = .ok (priv, pub))
    (hwp : env.writePubResult = none) (hwv : env.writePrivResult = some e) :
    prepareDir env fs
      = ({ fs with
            dir := some (fs.dir.getD 0o755),
            pubFile := some ⟨pub, (fs.pubFile.map File.perm).getD 0o644⟩ },
         some (.wrap "write private ssh key" e)) ∧
    (prepareDir env fs).1.privFile = none ∧
    (prepareDir env fs).1.pubFile
      = some ⟨pub, (fs.pubFile.map File.perm).getD 0o644⟩ := by
  have h1 : prepareDir env fs
      = ({ fs with
            dir := some (fs.dir.getD 0o755),
            pubFile := some ⟨pub, (fs.pubFile.map File.perm).getD 0o644⟩ },
         some (.wrap "write private ssh key" e)) := by
    simp [prepareDir, mkdirAll, writeFile, hp, hm, hk, hwp, hwv]
  refine ⟨h1, ?_, ?_⟩
  · rw [h1]
    exact hp
  · rw [h1]

/-- Witness for C10 at an empty directory with a failing private-key
write. -/
theorem prepareDir_partial_on_priv_write_failure_witness :
    prepareDir envPrivWriteFails fsEmptyDir
      = (⟨some 0o700, none, some ⟨"GEN PUBLIC", 0o644⟩⟩,
         some (.wrap "write private ssh key" (.base "disk full"))) := by
  have h := prepareDir_partial_on_priv_write_failure envPrivWriteFails
    fsEmptyDir "GEN PRIVATE" "GEN PUBLIC" (.base "disk full")
    rfl rfl rfl rfl rfl
  simpa [fsEmptyDir, envPrivWriteFails] using h.1

/-- C8: evaluation of GetPrivateKey at the failing input — a directory
holding both key files with a failing private-key file read.  The code
wraps the failure with the label read public ssh key (a copy of the
GetPublicKey label), not a label identifying the private-key read
stage as the claim states. -/
theorem getPrivateKey_read_failure_mislabel :
    (GetPrivateKey envPrivReadFails fsWithKeys).2
      = .error (.wrap "read public ssh key" (.base "input-output error")) := by
  rfl

/-- C3: when configuration loading succeeds and the client opens, the
delete command makes exactly one compute-API call, Delete with the
configured machine id against a client opened for the configured
project and zone, and returns the SDK call result verbatim (nil on
success, the error otherwise) with no additional compute-API call; and
when configuration loading fails, the command returns that error before
any client is opened (the trace is empty). -/
theorem deleteCmd_contract (env : CmdEnv) (opts : Options) (e : GoErr) :
    (env.fromEnvResult = .ok opts → env.newClientResult = none →
      NewDeleteCmdRunE env
        = (env.deleteResult,
           [.newClient opts.project opts.zone,
            .deleteCall opts.machineID, .close]) ∧
      List.filter isComputeCall (NewDeleteCmdRunE env).2
        = [.deleteCall opts.machineID]) ∧
    (env.fromEnvResult = .error e → NewDeleteCmdRunE env = (some e, [])) := by
  constructor
  · intro hc hn
    have hrun : NewDeleteCmdRunE env
        = (env.deleteResult,
           [.newClient opts.project opts.zone,
            .deleteCall opts.machineID, .close]) := by
      simp [NewDeleteCmdRunE, DeleteCmdRun, hc, hn]
    refine ⟨hrun, ?_⟩
    rw [hrun]
    simp [isComputeCall]
  · intro hc
    simp [NewDeleteCmdRunE, hc]

/-- Witness for C3 at a successful run and at a failing configuration
load. -/
theorem deleteCmd_contract_witness :
    NewDeleteCmdRunE cmdEnvOk
      = (none,
         [.newClient "my-project" "europe-west4-a",
          .deleteCall "devpod-vm", .close]) ∧
    NewDeleteCmdRunE cmdEnvNoCfg = (some (.base "PROJECT is required"), []) := by
  have hok := ((deleteCmd_contract cmdEnvOk optsSample (.base "x")).1 rfl rfl).1
  have hbad := (deleteCmd_contract cmdEnvNoCfg optsSample
    (.base "PROJECT is required")).2 rfl
  exact ⟨by simpa [cmdEnvOk, optsSample] using hok, hbad⟩

/-- C6: for every key-bytes value that parses as a private key,
ConfigFromKeyBytes succeeds with a configuration whose user identity is
the fixed string devpod, whose only authentication method is public-key
authentication presenting the public key derived from the parsed
signer, and whose host-key callback accepts every remote host key. -/
theorem configFromKeyBytes_contract (keyBytes : SymBytes) (signer : Signer)
    (h : sshParsePrivateKey keyBytes = .ok signer) :
    ∃ cfg, ConfigFromKeyBytes keyBytes = .ok cfg ∧
      cfg.user = "devpod" ∧
      cfg.auth = [.publicKeys signer] ∧
      cfg.auth.map AuthMethod.presentedKey = [signer.publicKey] ∧
      ∀ ep : HostEndpoint, cfg.hostKeyCallback ep = none := by
  refine ⟨{ auth := [.publicKeys signer]
            user := "devpod"
            hostKeyCallback := insecureIgnoreHostKey }, ?_, rfl, rfl, ?_, ?_⟩
  · simp [ConfigFromKeyBytes, h]
  · simp [AuthMethod.presentedKey]
  · intro ep
    rfl

/-- Witness for C6 at the symbolic private-key bytes of the sample
key. -/
theorem configFromKeyBytes_contract_witness :
    ∃ cfg, ConfigFromKeyBytes keyBytesSample = .ok cfg ∧
      cfg.user = "devpod" ∧
      cfg.auth = [.publicKeys (.rsa rsaSample)] ∧
      cfg.auth.map AuthMethod.presentedKey = [Signer.publicKey (.rsa rsaSample)] ∧
      ∀ ep : HostEndpoint, cfg.hostKeyCallback ep = none :=
  configFromKeyBytes_contract keyBytesSample (.rsa rsaSample) rfl

/-- C7: every key pair produced by a successful rsaKeyGen round-trips.
The private-key bytes parse to a signer, and the authorized-key
marshalling of that signer derived public key equals the returned
public-key bytes exactly. -/
theorem rsaKeyGen_roundtrip (gen : Except String RSAPriv)
    (priv pub : SymBytes)
    (h : rsaKeyGen gen = .ok (priv, pub)) :
    ∃ signer, sshParsePrivateKey priv = .ok signer ∧
      marshalAuthorizedKey signer.publicKey = pub := by
  cases gen with
  | error msg => simp [rsaKeyGen] at h
  | ok k =>
    simp [rsaKeyGen, generateKeys, sshNewPublicKey, pemEncodeToMemory,
      marshalAuthorizedKey] at h
    obtain ⟨hpriv, hpub⟩ := h
    subst hpriv
    subst hpub
    exact ⟨.rsa k, rfl, rfl⟩

/-- Witness for C7 at the sample generated key. -/
theorem rsaKeyGen_roundtrip_witness :
    ∃ signer,
      sshParsePrivateKey (SymBytes.pem "RSA PRIVATE KEY" (.pkcs1 rsaSample))
        = .ok signer ∧
      marshalAuthorizedKey signer.publicKey
        = SymBytes.authorizedKey (.rsa rsaSample.pub) :=
  rsaKeyGen_roundtrip (.ok rsaSample) _ _ rfl
